import Mathlib

/-!
Shallow embedding of the Practiso archive MCP server (`src/main.py`): the
build-state guard, the four tool handlers (`begin_quiz`, `end_quiz`,
`add_text`, `save`), and the session-lifecycle teardown of `app_lifespan`.
External collaborators (the `practiso_sdk` builder, `gzip`, `pathlib`,
the MCP transport) are modelled as observable effects or as records of the
attributes the code queries.
-/

/-- Modelled from the spec: the `state_tracking` module (enumeration `Head`)
is not among the sources.  §3 of the spec: an enumerated value with a strict
total order `root < quiz < option`; the integer rank determines legal
ancestry, and rank-to-name lookup serves diagnostic messages. -/
inductive Head where
  | root
  | quiz
  | option
deriving DecidableEq

/-- Integer rank of a level (`root < quiz < option`, ranks 0, 1, 2). -/
def Head.toNat : Head → Nat
  | Head.root => 0
  | Head.quiz => 1
  | Head.option => 2

/-- Rank-to-level lookup, the Python `Head(i)` enum call.  Python raises for
a value outside 0..2; `main.py` only ever applies it to 1..level ≤ 2, so the
out-of-range branch is unreachable and mapped to `option` as junk. -/
def Head.fromValue (n : Nat) : Head :=
  match n with
  | 0 => Head.root
  | 1 => Head.quiz
  | _ => Head.option

/-- Name of a level, the Python `Head.name` enum attribute. -/
def Head.name : Head → String
  | Head.root => "root"
  | Head.quiz => "quiz"
  | Head.option => "option"

/-- Modelled from the spec: the `state_tracking` module (class
`BuildingStateTracker`) is not among the sources.  Per §3 it holds the
current level `head` and a `built` flag; `empty` is tracked here through
`everBegun` (glossary: empty iff no unit has ever been started).  §3 states
`built` is reset to false whenever new content-producing operations begin;
its initial value is not stated explicitly and is taken as `true` (a session
that never began a unit holds nothing pending to build), which is the one
choice consistent with teardown scenario C of §8 (an empty session writes no
file and emits no diagnostic). -/
structure BuildingStateTracker where
  head : Head
  built : Bool
  everBegun : Bool
deriving DecidableEq

/-- Initial tracker of a fresh session. -/
def BuildingStateTracker.init : BuildingStateTracker :=
  ⟨Head.root, true, false⟩

/-- Modelled from the spec (§3): `valid` iff `head == root`. -/
def BuildingStateTracker.valid (s : BuildingStateTracker) : Bool :=
  s.head == Head.root

/-- Modelled from the spec (§3, glossary): `empty` iff no unit ever begun. -/
def BuildingStateTracker.empty (s : BuildingStateTracker) : Bool :=
  !s.everBegun

/-- Modelled from the spec: the integer rank of the current head, the
`state.level` attribute read by `save` in `main.py`. -/
def BuildingStateTracker.level (s : BuildingStateTracker) : Nat :=
  s.head.toNat

/-- Python exceptions raised by the code: `ValueError`, `RuntimeError`, and
the tracker's defensive `IllegalTransition` (§4.2 of the spec). -/
inductive PyError where
  | valueError (msg : String)
  | runtimeError (msg : String)
  | illegalTransition
deriving DecidableEq

/-- Modelled from the spec (§4.2): `increase_level` moves `head` one rank
deeper, failing with `IllegalTransition` at the deepest level; beginning a
content-producing operation resets `built` (§3) and the session is no longer
empty. -/
def BuildingStateTracker.increase_level (s : BuildingStateTracker) :
    Except PyError BuildingStateTracker :=
  match s.head with
  | Head.root => Except.ok ⟨Head.quiz, false, true⟩
  | Head.quiz => Except.ok ⟨Head.option, false, true⟩
  | Head.option => Except.error PyError.illegalTransition

/-- Modelled from the spec (§4.2): `decrease_level` moves `head` one rank
shallower, failing with `IllegalTransition` at `root`. -/
def BuildingStateTracker.decrease_level (s : BuildingStateTracker) :
    Except PyError BuildingStateTracker :=
  match s.head with
  | Head.root => Except.error PyError.illegalTransition
  | Head.quiz => Except.ok ⟨Head.root, s.built, s.everBegun⟩
  | Head.option => Except.ok ⟨Head.quiz, s.built, s.everBegun⟩

/-- Observable side effects of the handlers and of teardown: calls into the
external builder, gzip file creation, file writes, stderr diagnostics. -/
inductive Effect where
  | builderBeginQuiz (name : Option String)
  | builderEndQuiz
  | builderAddText (content : String)
  | builderBuild
  | gzipOpen (filename : String)
  | fileWrite (filename : String)
  | stderrWarning (msg : String)
deriving DecidableEq

/-- Abstraction of `pathlib.Path` (an external library): the record holds
exactly the attributes `save` queries — the string form, `is_absolute()`,
`is_dir()` (a filesystem fact), and `suffix`. -/
structure PathInfo where
  str : String
  isAbsolute : Bool
  isDir : Bool
  suffix : String
deriving DecidableEq

/-- A wall-clock instant, for `datetime.now()` at teardown. -/
structure DateTime where
  year : Nat
  month : Nat
  day : Nat
  hour : Nat
  minute : Nat
  second : Nat
deriving DecidableEq

/-- Two-digit zero padding, as in `strftime` fields. -/
def pad2 (n : Nat) : String :=
  if n < 10 then "0" ++ toString n else toString n

/-- Four-digit zero padding, as in `strftime` `%Y`. -/
def pad4 (n : Nat) : String :=
  if n < 10 then "000" ++ toString n
  else if n < 100 then "00" ++ toString n
  else if n < 1000 then "0" ++ toString n
  else toString n

/-- The `strftime("%Y%m%d_%H%M%S")` format used for fallback filenames. -/
def strftime_Ymd_HMS (t : DateTime) : String :=
  pad4 t.year ++ pad2 t.month ++ pad2 t.day ++ "_" ++
    pad2 t.hour ++ pad2 t.minute ++ pad2 t.second

/-- Embedding of `_format_available_actions` (main.py lines 47-59). -/
def _format_available_actions (actions : List String) : String :=
  "Now you can "
    ++ (if actions.length == 2 then "either: " else "")
    ++ (if actions.length == 1 then actions.headD ""
        else String.intercalate "; "
          (actions.enum.map (fun p => toString (p.1 + 1) ++ ". " ++ p.2)))
    ++ "."

/-- Embedding of `_format_and_clause` (main.py lines 62-69).  The Python
function raises `ValueError("empty items")` on an empty list; on three or
more items it recurses on the final two items, a call that always lands in
the two-item case, so that recursion is unrolled here. -/
def _format_and_clause (items : List String) : Except PyError String :=
  match items with
  | [] => Except.error (PyError.valueError "empty items")
  | [a] => Except.ok a
  | [a, b] => Except.ok (a ++ " and " ++ b)
  | a :: b :: c :: rest =>
    let l := a :: b :: c :: rest
    Except.ok (String.intercalate ", " (l.take (l.length - 2)) ++ ", " ++
      l.getD (l.length - 2) "" ++ " and " ++ l.getD (l.length - 1) "")

/-- Embedding of `_assert_valid` (main.py lines 72-76).  The Python
expression `"you are in an illegal state" + f"; [instructions]" if
instructions else ""` parses as a conditional whose else-branch is the empty
string, because `+` binds tighter than the conditional: with no (or falsy)
instructions the raised `RuntimeError` carries an empty message. -/
def _assert_valid (is_valid : Bool) (instructions : Option String) :
    Except PyError Unit :=
  if !is_valid then
    Except.error (PyError.runtimeError
      (match instructions with
       | some instr =>
         if instr == "" then "" else "you are in an illegal state; " ++ instr
       | none => ""))
  else Except.ok ()

/-- Result of one tool handler: the effects performed, and either a raised
Python exception or the updated tracker with the returned message. -/
abbrev HandlerResult :=
  List Effect × Except PyError (BuildingStateTracker × String)

/-- Embedding of the `begin_quiz` tool (main.py lines 79-86). -/
def begin_quiz (name : Option String) (s : BuildingStateTracker) :
    HandlerResult :=
  match _assert_valid (s.head == Head.root) none with
  | Except.error e => ([], Except.error e)
  | Except.ok _ =>
    match s.increase_level with
    | Except.error e => ([Effect.builderBeginQuiz name], Except.error e)
    | Except.ok t =>
      ([Effect.builderBeginQuiz name],
        Except.ok (t, "Quiz begun. Now you can add content to the quiz."))

/-- Embedding of the `end_quiz` tool (main.py lines 89-96). -/
def end_quiz (s : BuildingStateTracker) : HandlerResult :=
  match _assert_valid (s.head == Head.quiz) none with
  | Except.error e => ([], Except.error e)
  | Except.ok _ =>
    match s.decrease_level with
    | Except.error e => ([Effect.builderEndQuiz], Except.error e)
    | Except.ok t =>
      ([Effect.builderEndQuiz],
        Except.ok (t, "Quiz ended. " ++ _format_available_actions
          ["save the all quiz(zes) into an archive file", "begin another quiz"]))

/-- Embedding of the `add_text` tool (main.py lines 99-108). -/
def add_text (content : String) (s : BuildingStateTracker) : HandlerResult :=
  match _assert_valid (s.head == Head.quiz || s.head == Head.option) none with
  | Except.error e => ([], Except.error e)
  | Except.ok _ =>
    let availble_actions :=
      ["add more content"] ++ (if s.head == Head.quiz then ["end the quiz"] else [])
    ([Effect.builderAddText content],
      Except.ok (s, "Text added. " ++ _format_available_actions availble_actions))

/-- Embedding of the `save` tool (main.py lines 111-133): path validation
first, then the emptiness assertion, then — because Python evaluates call
arguments eagerly — the and-clause over `range(state.level, 0, -1)` is
computed before `_assert_valid(state.valid, ...)` runs, and only then the
validity assertion; on the (never reached) success path, `gzip.open`
precedes the builder's `build()` and the file write. -/
def save (p : PathInfo) (s : BuildingStateTracker) : HandlerResult :=
  if !p.isAbsolute then
    ([], Except.error (PyError.valueError "path is not absolute"))
  else if p.isDir then
    ([], Except.error (PyError.valueError "path is an existing directory"))
  else if p.suffix != ".psarchive" then
    ([], Except.error (PyError.valueError "path doesn\x27t end with `.psarchive`"))
  else
    match _assert_valid (!s.empty) (some "begin a quiz first") with
    | Except.error e => ([], Except.error e)
    | Except.ok _ =>
      match _format_and_clause
          ((List.range s.level).reverse.map (fun i => (Head.fromValue (i + 1)).name)) with
      | Except.error e => ([], Except.error e)
      | Except.ok clause =>
        match _assert_valid s.valid (some ("end the " ++ clause)) with
        | Except.error e => ([], Except.error e)
        | Except.ok _ =>
          ([Effect.gzipOpen p.str, Effect.builderBuild, Effect.fileWrite p.str],
            Except.ok (s, "Your edit has been saved to `" ++ p.str ++ "`"))

/-- Embedding of the `finally` block of `app_lifespan` (main.py lines
29-39): valid-and-unbuilt states trigger an automatic build written gzipped
to a timestamped fallback file; invalid non-empty states emit a stderr
warning; anything else exits silently. -/
def app_lifespan_teardown (now : DateTime) (s : BuildingStateTracker) :
    List Effect :=
  if s.valid && !s.built then
    [Effect.builderBuild,
      Effect.gzipOpen ("unsaved_" ++ strftime_Ymd_HMS now ++ ".psarchive"),
      Effect.fileWrite ("unsaved_" ++ strftime_Ymd_HMS now ++ ".psarchive")]
  else if !s.valid && !s.empty then
    [Effect.stderrWarning
      ("Warning: archive was left invalid at " ++ s.head.name ++ " and was UNSAVED")]
  else []

/-- One inbound tool call with its arguments. -/
inductive ToolCall where
  | beginQ (name : Option String)
  | endQ
  | addT (content : String)
  | saveT (p : PathInfo)

/-- The tracker after one tool call: a raised exception leaves the tracker
as it was (every handler checks before mutating). -/
def applyTool (c : ToolCall) (s : BuildingStateTracker) : BuildingStateTracker :=
  match c with
  | ToolCall.beginQ n =>
    match (begin_quiz n s).2 with
    | Except.ok (t, _) => t
    | Except.error _ => s
  | ToolCall.endQ =>
    match (end_quiz s).2 with
    | Except.ok (t, _) => t
    | Except.error _ => s
  | ToolCall.addT content =>
    match (add_text content s).2 with
    | Except.ok (t, _) => t
    | Except.error _ => s
  | ToolCall.saveT p =>
    match (save p s).2 with
    | Except.ok (t, _) => t
    | Except.error _ => s

/-- The tracker after a whole sequence of tool calls. -/
def runSeq (cs : List ToolCall) (s : BuildingStateTracker) :
    BuildingStateTracker :=
  cs.foldl (fun t c => applyTool c t) s

/-- A tracker state some session can actually be in: reachable from the
fresh tracker by a sequence of tool calls. -/
def Reachable (s : BuildingStateTracker) : Prop :=
  ∃ cs : List ToolCall, runSeq cs BuildingStateTracker.init = s

/-- Whether a handler outcome is a success (no exception raised). -/
def isOkResult (r : Except PyError (BuildingStateTracker × String)) : Bool :=
  match r with
  | Except.ok _ => true
  | Except.error _ => false

/-- The effect of `begin_quiz` on the tracker: a step to `quiz` from `root`,
otherwise no change. -/
theorem applyTool_beginQ (n : Option String) (s : BuildingStateTracker) :
    applyTool (ToolCall.beginQ n) s =
      if s.head = Head.root then ⟨Head.quiz, false, true⟩ else s := by
  rcases s with ⟨h, b, e⟩
  cases h <;>
    simp [applyTool, begin_quiz, _assert_valid, BuildingStateTracker.increase_level]

/-- The effect of `end_quiz` on the tracker: a step back to `root` from
`quiz`, otherwise no change. -/
theorem applyTool_endQ (s : BuildingStateTracker) :
    applyTool ToolCall.endQ s =
      if s.head = Head.quiz then ⟨Head.root, s.built, s.everBegun⟩ else s := by
  rcases s with ⟨h, b, e⟩
  cases h <;>
    simp [applyTool, end_quiz, _assert_valid, BuildingStateTracker.decrease_level]

/-- `add_text` never changes the tracker. -/
theorem applyTool_addT (content : String) (s : BuildingStateTracker) :
    applyTool (ToolCall.addT content) s = s := by
  rcases s with ⟨h, b, e⟩
  cases h <;> simp [applyTool, add_text, _assert_valid]

/-- A successful `save` hands back the tracker it was given. -/
theorem save_ok_state (p : PathInfo) (s : BuildingStateTracker)
    (x : BuildingStateTracker × String) :
    (save p s).2 = Except.ok x → x.1 = s := by
  unfold save
  repeat' split
  all_goals intro hx
  all_goals (try simp_all)
  all_goals (subst hx; rfl)

/-- `save` never changes the tracker, whether it raises or succeeds. -/
theorem applyTool_saveT (p : PathInfo) (s : BuildingStateTracker) :
    applyTool (ToolCall.saveT p) s = s := by
  have hdef : applyTool (ToolCall.saveT p) s =
      (match (save p s).2 with
       | Except.ok (t, _) => t
       | Except.error _ => s) := rfl
  rw [hdef]
  cases hsv : (save p s).2 with
  | error e => rfl
  | ok x =>
    obtain ⟨t, m⟩ := x
    exact save_ok_state p s (t, m) hsv

/-- The session invariant behind teardown scenario C: a tracker in which no
unit was ever begun is still the fresh tracker — at `root` with nothing
pending to build. -/
def EmptyImpliesFresh (s : BuildingStateTracker) : Prop :=
  s.everBegun = false → (s.built = true ∧ s.head = Head.root)

/-- The fresh tracker satisfies the invariant. -/
theorem inv_init : EmptyImpliesFresh BuildingStateTracker.init := by
  intro h
  exact ⟨rfl, rfl⟩

/-- Every tool call preserves the invariant. -/
theorem inv_step (c : ToolCall) (s : BuildingStateTracker)
    (hs : EmptyImpliesFresh s) : EmptyImpliesFresh (applyTool c s) := by
  cases c with
  | beginQ n =>
    rw [applyTool_beginQ]
    by_cases h : s.head = Head.root
    · simp only [h, if_pos]
      intro he
      cases he
    · simpa [h] using hs
  | endQ =>
    rw [applyTool_endQ]
    by_cases h : s.head = Head.quiz
    · simp only [h, if_pos]
      intro he
      exact absurd (hs he).2 (by simp [h])
    · simpa [h] using hs
  | addT content =>
    rw [applyTool_addT]
    exact hs
  | saveT p =>
    rw [applyTool_saveT]
    exact hs

/-- Every sequence of tool calls preserves the invariant. -/
theorem inv_run (cs : List ToolCall) (s : BuildingStateTracker)
    (hs : EmptyImpliesFresh s) : EmptyImpliesFresh (runSeq cs s) := by
  induction cs generalizing s with
  | nil => exact hs
  | cons c cs ih => exact ih (applyTool c s) (inv_step c s hs)

/-- Claim C1: for every session that ends with `head == root` and no unit
ever begun (`empty` is true), the teardown path writes no file and emits no
diagnostic — it performs no effect at all. -/
theorem c1_empty_session_teardown_silent (now : DateTime)
    (s : BuildingStateTracker) (hr : Reachable s) (hh : s.head = Head.root)
    (he : s.empty = true) : app_lifespan_teardown now s = [] := by
  obtain ⟨cs, hcs⟩ := hr
  have hinv : EmptyImpliesFresh s := hcs ▸ inv_run cs BuildingStateTracker.init inv_init
  have heb : s.everBegun = false := by
    simpa [BuildingStateTracker.empty] using he
  obtain ⟨hb, -⟩ := hinv heb
  simp [app_lifespan_teardown, BuildingStateTracker.valid, hh, hb]

/-- Witness for C1: the fresh session, torn down untouched. -/
theorem c1_witness :
    app_lifespan_teardown ⟨2025, 10, 12, 9, 30, 5⟩ BuildingStateTracker.init = [] :=
  c1_empty_session_teardown_silent ⟨2025, 10, 12, 9, 30, 5⟩
    BuildingStateTracker.init ⟨[], rfl⟩ rfl rfl

/-- Claim C9: for every tool call on every tracker state, the head after
the call is one of root, quiz, option, and its rank differs from the rank
before the call by at most one. -/
theorem c9_head_transitions_bounded (c : ToolCall) (s : BuildingStateTracker) :
    ((applyTool c s).head = Head.root ∨ (applyTool c s).head = Head.quiz ∨
      (applyTool c s).head = Head.option)
    ∧ (applyTool c s).head.toNat ≤ s.head.toNat + 1
    ∧ s.head.toNat ≤ (applyTool c s).head.toNat + 1 := by
  refine ⟨?_, ?_⟩
  · cases h : (applyTool c s).head
    · exact Or.inl rfl
    · exact Or.inr (Or.inl rfl)
    · exact Or.inr (Or.inr rfl)
  · cases c with
    | beginQ n =>
      rw [applyTool_beginQ]
      by_cases h : s.head = Head.root
      · simp [h, Head.toNat]
      · simp [h]
    | endQ =>
      rw [applyTool_endQ]
      by_cases h : s.head = Head.quiz
      · simp [h, Head.toNat]
      · simp [h]
    | addT content =>
      rw [applyTool_addT]
      simp
    | saveT p =>
      rw [applyTool_saveT]
      simp

/-- Claim C6: `begin_quiz` succeeds iff `head == root`, and after a
successful `begin_quiz` the tracker's head is `quiz`. -/
theorem c6_begin_quiz_iff_root (name : Option String) (s : BuildingStateTracker) :
    (isOkResult (begin_quiz name s).2 = true ↔ s.head = Head.root)
    ∧ (∀ t m, (begin_quiz name s).2 = Except.ok (t, m) → t.head = Head.quiz) := by
  rcases s with ⟨h, b, e⟩
  cases h <;>
    simp [begin_quiz, _assert_valid, BuildingStateTracker.increase_level, isOkResult]

/-- Witness for C6: on the fresh session, `begin_quiz` succeeds and the head
becomes `quiz`. -/
theorem c6_witness :
    isOkResult (begin_quiz none BuildingStateTracker.init).2 = true
    ∧ (⟨Head.quiz, false, true⟩ : BuildingStateTracker).head = Head.quiz :=
  ⟨(c6_begin_quiz_iff_root none BuildingStateTracker.init).1.mpr rfl,
    (c6_begin_quiz_iff_root none BuildingStateTracker.init).2
      ⟨Head.quiz, false, true⟩ "Quiz begun. Now you can add content to the quiz." rfl⟩

/-- Claim C7: `add_text` succeeds iff the head is `quiz` or `option`, and a
successful `add_text` leaves the whole tracker unchanged. -/
theorem c7_add_text_iff_quiz_or_option (content : String) (s : BuildingStateTracker) :
    (isOkResult (add_text content s).2 = true ↔
      (s.head = Head.quiz ∨ s.head = Head.option))
    ∧ (∀ t m, (add_text content s).2 = Except.ok (t, m) → t = s) := by
  rcases s with ⟨h, b, e⟩
  cases h <;> simp [add_text, _assert_valid, isOkResult]

/-- Witness for C7: `add_text` succeeds at head `quiz` and returns the same
tracker. -/
theorem c7_witness :
    isOkResult (add_text "What is 2 + 2?" ⟨Head.quiz, false, true⟩).2 = true
    ∧ (⟨Head.quiz, false, true⟩ : BuildingStateTracker) = ⟨Head.quiz, false, true⟩ :=
  ⟨(c7_add_text_iff_quiz_or_option "What is 2 + 2?" ⟨Head.quiz, false, true⟩).1.mpr
      (Or.inl rfl),
    (c7_add_text_iff_quiz_or_option "What is 2 + 2?" ⟨Head.quiz, false, true⟩).2
      ⟨Head.quiz, false, true⟩
      "Text added. Now you can either: 1. add more content; 2. end the quiz." rfl⟩

/-- Claim C3 fails on the code: when `begin_quiz`, `end_quiz` or `add_text`
is called at a forbidden level, `_assert_valid` is given no instructions and
— because `+` binds tighter than Python's conditional expression — the
raised `RuntimeError` carries the empty message, not a remediation hint. -/
theorem c3_illegal_state_message_empty :
    (begin_quiz none ⟨Head.quiz, false, true⟩).2
      = Except.error (PyError.runtimeError "")
    ∧ (end_quiz ⟨Head.root, true, false⟩).2
      = Except.error (PyError.runtimeError "")
    ∧ (add_text "x" ⟨Head.root, true, false⟩).2
      = Except.error (PyError.runtimeError "") :=
  ⟨rfl, rfl, rfl⟩

/-- Claim C4: `save` raises a distinct error for a non-absolute path, for an
existing directory, and for a wrong extension, in that order of precedence,
each with no builder call or file effect and with a result independent of the
tracker state (the state `s` is arbitrary and absent from the result). -/
theorem c4_save_path_validation (p : PathInfo) (s : BuildingStateTracker) :
    (p.isAbsolute = false →
      save p s = ([], Except.error (PyError.valueError "path is not absolute")))
    ∧ (p.isAbsolute = true → p.isDir = true →
      save p s = ([], Except.error (PyError.valueError "path is an existing directory")))
    ∧ (p.isAbsolute = true → p.isDir = false → p.suffix ≠ ".psarchive" →
      save p s = ([], Except.error
        (PyError.valueError "path doesn\x27t end with `.psarchive`"))) := by
  refine ⟨fun h1 => ?_, fun h1 h2 => ?_, fun h1 h2 h3 => ?_⟩
  · simp [save, h1]
  · simp [save, h1, h2]
  · simp [save, h1, h2, h3]

/-- Witness for C4: the three violations on concrete paths, in an arbitrary
concrete tracker state. -/
theorem c4_witness :
    save ⟨"quizzes.psarchive", false, false, ".psarchive"⟩ ⟨Head.root, true, false⟩
      = ([], Except.error (PyError.valueError "path is not absolute"))
    ∧ save ⟨"/home/u", true, true, ""⟩ ⟨Head.quiz, false, true⟩
      = ([], Except.error (PyError.valueError "path is an existing directory"))
    ∧ save ⟨"/home/u/quizzes.txt", true, false, ".txt"⟩ ⟨Head.root, false, true⟩
      = ([], Except.error (PyError.valueError "path doesn\x27t end with `.psarchive`")) :=
  ⟨(c4_save_path_validation ⟨"quizzes.psarchive", false, false, ".psarchive"⟩
      ⟨Head.root, true, false⟩).1 rfl,
    (c4_save_path_validation ⟨"/home/u", true, true, ""⟩
      ⟨Head.quiz, false, true⟩).2.1 rfl rfl,
    (c4_save_path_validation ⟨"/home/u/quizzes.txt", true, false, ".txt"⟩
      ⟨Head.root, false, true⟩).2.2 rfl rfl (by decide)⟩

/-- Claim C5: when `save` is called on an acceptable target path while a
unit has been begun but the tracker is not at root, the `IllegalState`
message carries a hint enumerating exactly the currently open levels from
deepest to shallowest joined with "and": "quiz" at head `quiz`, "option and
quiz" at head `option`. -/
theorem c5_save_open_levels_hint (p : PathInfo) (s : BuildingStateTracker)
    (hA : p.isAbsolute = true) (hD : p.isDir = false)
    (hS : p.suffix = ".psarchive") (hne : s.empty = false) :
    (s.head = Head.quiz →
      save p s = ([], Except.error (PyError.runtimeError
        "you are in an illegal state; end the quiz")))
    ∧ (s.head = Head.option →
      save p s = ([], Except.error (PyError.runtimeError
        "you are in an illegal state; end the option and quiz"))) := by
  rcases s with ⟨h, b, e⟩
  have he : e = true := by simpa [BuildingStateTracker.empty] using hne
  subst he
  constructor <;> intro hh <;> subst hh <;>
    simp [save, hA, hD, hS, _assert_valid, _format_and_clause,
      BuildingStateTracker.empty, BuildingStateTracker.valid,
      BuildingStateTracker.level, Head.toNat, Head.fromValue, Head.name,
      List.range_succ]

/-- Witness for C5: a save attempted mid-quiz on an acceptable path. -/
theorem c5_witness :
    save ⟨"/home/u/quizzes.psarchive", true, false, ".psarchive"⟩
        ⟨Head.quiz, false, true⟩
      = ([], Except.error (PyError.runtimeError
          "you are in an illegal state; end the quiz")) :=
  (c5_save_open_levels_hint ⟨"/home/u/quizzes.psarchive", true, false, ".psarchive"⟩
    ⟨Head.quiz, false, true⟩ rfl rfl rfl rfl).1 rfl

/-- Claim C2 fails on the code: in the exact precondition state of `save`
(valid, non-empty) the eagerly evaluated hint for the validity assertion
calls `_format_and_clause` on the empty open-level list, which raises
`ValueError "empty items"`; so no call to `save` ever succeeds, `built` is
never marked, and the teardown right after the attempted save still takes
the fallback-file branch rather than the clean exit. -/
theorem c2_save_crashes_instead_of_marking_built :
    (save ⟨"/home/u/quizzes.psarchive", true, false, ".psarchive"⟩
        ⟨Head.root, false, true⟩).2
      = Except.error (PyError.valueError "empty items")
    ∧ app_lifespan_teardown ⟨2025, 10, 12, 9, 30, 5⟩ ⟨Head.root, false, true⟩
      = [Effect.builderBuild,
          Effect.gzipOpen "unsaved_20251012_093005.psarchive",
          Effect.fileWrite "unsaved_20251012_093005.psarchive"] :=
  ⟨rfl, rfl⟩

/-- Claim C8: tearing a session down while the tracker is valid and `built`
is false performs an automatic build and writes exactly one gzipped fallback
file named `unsaved_<YYYYMMDD_HHMMSS>.psarchive` stamped with the current
date and time. -/
theorem c8_teardown_fallback_file (now : DateTime) (s : BuildingStateTracker)
    (hv : s.valid = true) (hb : s.built = false) :
    app_lifespan_teardown now s =
      [Effect.builderBuild,
        Effect.gzipOpen ("unsaved_" ++ strftime_Ymd_HMS now ++ ".psarchive"),
        Effect.fileWrite ("unsaved_" ++ strftime_Ymd_HMS now ++ ".psarchive")] := by
  simp [app_lifespan_teardown, hv, hb]

/-- Witness for C8: the state after begin, add, end, torn down at a concrete
instant. -/
theorem c8_witness :
    app_lifespan_teardown ⟨2025, 10, 12, 9, 30, 5⟩ ⟨Head.root, false, true⟩ =
      [Effect.builderBuild,
        Effect.gzipOpen "unsaved_20251012_093005.psarchive",
        Effect.fileWrite "unsaved_20251012_093005.psarchive"] := by
  have h := c8_teardown_fallback_file ⟨2025, 10, 12, 9, 30, 5⟩
    ⟨Head.root, false, true⟩ rfl rfl
  exact h.trans (by rfl)

/-- Counterexample to claim C10: `save` does read the tracker — two states
differing only in the `everBegun` field produce different errors on the same
acceptable path — and in the valid non-empty state the call fails rather
than succeeds, so two immediate saves cannot both succeed. -/
theorem c10_counterexample :
    (save ⟨"/home/u/quizzes.psarchive", true, false, ".psarchive"⟩
        ⟨Head.root, false, true⟩).2
      = Except.error (PyError.valueError "empty items")
    ∧ (save ⟨"/home/u/quizzes.psarchive", true, false, ".psarchive"⟩
        ⟨Head.root, false, false⟩).2
      = Except.error (PyError.runtimeError
          "you are in an illegal state; begin a quiz first") :=
  ⟨rfl, rfl⟩

/-- Claim C10 as amended: `save` mutates no tracker field (the tracker after
any save call is the tracker before), but it does read `empty` and `valid`;
on every valid, non-empty state with an acceptable path it deterministically
raises `ValueError "empty items"`, so two immediate successive saves fail
identically instead of both succeeding. -/
theorem c10_save_frame_and_failure (p : PathInfo) (s : BuildingStateTracker) :
    applyTool (ToolCall.saveT p) s = s
    ∧ (s.valid = true → s.empty = false → p.isAbsolute = true →
        p.isDir = false → p.suffix = ".psarchive" →
        (save p s).2 = Except.error (PyError.valueError "empty items")) := by
  refine ⟨applyTool_saveT p s, fun hv hne hA hD hS => ?_⟩
  rcases s with ⟨h, b, e⟩
  have he : e = true := by simpa [BuildingStateTracker.empty] using hne
  have hh : h = Head.root := by simpa [BuildingStateTracker.valid] using hv
  subst he
  subst hh
  simp [save, hA, hD, hS, _assert_valid, _format_and_clause,
    BuildingStateTracker.empty, BuildingStateTracker.valid,
    BuildingStateTracker.level, Head.toNat]

/-- Witness for C10: the frame property and the deterministic failure at a
concrete valid, non-empty state and acceptable path. -/
theorem c10_witness :
    applyTool (ToolCall.saveT ⟨"/home/u/quizzes.psarchive", true, false, ".psarchive"⟩)
        ⟨Head.root, false, true⟩ = ⟨Head.root, false, true⟩
    ∧ (save ⟨"/home/u/quizzes.psarchive", true, false, ".psarchive"⟩
        ⟨Head.root, false, true⟩).2
      = Except.error (PyError.valueError "empty items") :=
  ⟨(c10_save_frame_and_failure ⟨"/home/u/quizzes.psarchive", true, false, ".psarchive"⟩
      ⟨Head.root, false, true⟩).1,
    (c10_save_frame_and_failure ⟨"/home/u/quizzes.psarchive", true, false, ".psarchive"⟩
      ⟨Head.root, false, true⟩).2 rfl rfl rfl rfl rfl⟩
